import Mathlib

/-!
Verification of the pg_probackup core against its specification.

This file gives a shallow embedding of the backup catalog
(`src/catalog.c`) and the page-level data-file engine (`src/data.c`)
of the pg_probackup repository, and proves or refutes the claims made
by the specification about those functions.

Conventions used throughout:
* machine integers are modelled as `Nat` or `Int`;
* the file-I/O facade (`fio_*`) is modelled by explicit oracles:
  environments record what every external call would return, so code
  under verification stays a pure function of its environment;
* `elog(ERROR, ...)`, which performs a non-local exit in C, is
  modelled by `Except` error results.

Compile-time constants of the modelled build (standard PostgreSQL
page layout): `BLCKSZ = 8192`, `MAXIMUM_ALIGNOF = 8`,
`RELSEG_SIZE = 131072`.
-/

/-! ## Common constants -/

def BLCKSZ : Nat := 8192

def RELSEG_SIZE : Nat := 131072

/-- MAXALIGN rounds up to the machine alignment (8 bytes). -/
def MAXALIGN (n : Nat) : Nat := (n + 7) / 8 * 8

/-- Sentinel page states from `src/data.c` (`prepare_page` comment):
`PageIsTruncated = -2`. -/
def PageIsTruncated : Int := -2

/-- `SkipCurrentPage = -3` (see the `prepare_page` comment). -/
def SkipCurrentPage : Int := -3

/-- `PageIsCorrupted = -4` (see the `prepare_page` comment). -/
def PageIsCorrupted : Int := -4

/-- Modelled from the spec: `BYTES_INVALID` is the `write_size`
sentinel meaning "unchanged file"; the macro lives in the missing
header `pg_probackup.h`.  Its concrete value (-1) is only used as a
distinguished sentinel here. -/
def BYTES_INVALID : Int := -1

/-- Modelled from the spec: `BLOCKNUM_INVALID` marks an unknown
`n_blocks`; the restore code comment says "It may be equal to -1,
then we don't want to truncate the result file". -/
def BLOCKNUM_INVALID : Int := -1

/-- `sizeof(BackupPageHeader)`: a `u32` block number plus an `i32`
compressed size (spec section 6, "Page frame"). -/
def BackupPageHeaderSize : Nat := 8

/-! ## Catalog data model (src/catalog.c) -/

/-- `BackupMode`; `backupModes[] = {"", "PAGE", "PTRACK", "DELTA", "FULL"}`. -/
inductive BackupMode where
  | INVALID
  | PAGE
  | PTRACK
  | DELTA
  | FULL
  deriving Repr, DecidableEq

/-- `BackupStatus` values recognized by the catalog. -/
inductive BackupStatus where
  | INVALID
  | RUNNING
  | OK
  | DONE
  | ERROR
  | MERGING
  | DELETING
  | DELETED
  | ORPHAN
  | CORRUPT
  deriving Repr, DecidableEq

/-! ## File list writer (write_backup_filelist, src/catalog.c:631-748)

`write_backup_filelist` renders one JSON line per `pgFile` entry and
pushes the lines through a bounded buffer of `BUFFERSZ = BLCKSZ*500`
bytes: a line is appended to the buffer while it fits, and when a
line does not fit the buffer is written out and reset.  The model
works at line granularity: the state is the list of buffered lines
(most recent first) together with `write_len`, the number of buffered
bytes, exactly as in the C code; the result is the list of lines that
reach the output file, in the order their bytes are written. -/

def BUFFERSZ : Nat := BLCKSZ * 500

/-- The fields of `pgFile` used by `write_backup_filelist`. -/
structure PgFileEntry where
  path : String
  rel_path : String
  write_size : Int
  mode : Nat
  is_datafile : Bool
  is_cfs : Bool
  crc : Nat
  compress_alg : String
  external_dir_num : Int
  segno : Nat
  linked : Option String
  n_blocks : Int
  deriving Repr, DecidableEq

/-- `strstr(path, root) == path`: `root` is non-NULL and a prefix of
the entry's path. -/
def root_matches (root : Option String) (f : PgFileEntry) : Bool :=
  match root with
  | some r => r.isPrefixOf f.path
  | none => false

/-- Path selection in `write_backup_filelist`: entries under `root`,
and external entries when an external list was given, are written
with their relative path. -/
def choose_path (root : Option String) (has_external_list : Bool) (f : PgFileEntry) : String :=
  if root_matches root f || (f.external_dir_num != 0 && has_external_list) then
    f.rel_path
  else
    f.path

/-- The JSON line `sprintf`ed for one file entry, including the
trailing newline.  Optional keys follow the C conditions:
`segno` when `is_datafile`, `linked` when the link target is set,
`n_blocks` when it is not `BLOCKNUM_INVALID`. -/
def render_file_line (root : Option String) (has_external_list : Bool)
    (f : PgFileEntry) : String :=
  "\x7b\"path\":\"" ++ choose_path root has_external_list f ++
  "\", \"size\":\"" ++ toString f.write_size ++
  "\", \"mode\":\"" ++ toString f.mode ++
  "\", \"is_datafile\":\"" ++ (if f.is_datafile then "1" else "0") ++
  "\", \"is_cfs\":\"" ++ (if f.is_cfs then "1" else "0") ++
  "\", \"crc\":\"" ++ toString f.crc ++
  "\", \"compress_alg\":\"" ++ f.compress_alg ++
  "\", \"external_dir_num\":\"" ++ toString f.external_dir_num ++ "\"" ++
  (if f.is_datafile then ",\"segno\":\"" ++ toString f.segno ++ "\"" else "") ++
  (match f.linked with
   | some l => ",\"linked\":\"" ++ l ++ "\""
   | none => "") ++
  (if f.n_blocks != BLOCKNUM_INVALID then
    ",\"n_blocks\":\"" ++ toString f.n_blocks ++ "\"" else "") ++
  "\x7d\n"

/-- The buffered write loop of `write_backup_filelist`.  `buf` holds
the buffered lines most recent first, `write_len` the buffered bytes.
When a line fits (`write_len + len <= BUFFERSZ`) it is buffered;
otherwise the buffer is written out and reset — the C code does not
put the current line into the buffer in that branch.  At the end of
the input the buffer is written out if it is non-empty. -/
def filelist_loop : List String → List String → Nat → List String
  | [], buf, write_len => if write_len > 0 then buf.reverse else []
  | l :: ls, buf, write_len =>
    if write_len + l.length ≤ BUFFERSZ then
      filelist_loop ls (l :: buf) (write_len + l.length)
    else
      buf.reverse ++ filelist_loop ls [] 0

/-- `write_backup_filelist`, reduced to the list of JSON lines that
reach `backup_content.control`. -/
def write_backup_filelist_lines (root : Option String) (has_external_list : Bool)
    (files : List PgFileEntry) : List String :=
  filelist_loop (files.map (render_file_line root has_external_list)) [] 0

/-! ### C1: one JSON line per file entry?

The claim asserts that `backup_content.control` receives exactly one
line per file entry regardless of where the buffer is flushed.  The
flush branch of the C loop, however, writes the buffer out and resets
`write_len` without copying the line that failed to fit, so that line
is lost.  The counterexample below uses 502 entries whose rendered
lines are exactly 8192 bytes (the path is 8065 characters): the first
500 lines fill the buffer exactly, the 501st triggers the flush and
is dropped, and the 502nd is buffered and flushed at the end. -/

/-- A file entry with the given path and minimal other fields; its
JSON line is the path plus 127 bytes of fixed syntax and values. -/
def probe_entry (p : String) : PgFileEntry :=
  { path := p
    rel_path := ""
    write_size := 0
    mode := 0
    is_datafile := false
    is_cfs := false
    crc := 0
    compress_alg := "none"
    external_dir_num := 0
    segno := 0
    linked := none
    n_blocks := -1 }

theorem render_probe_entry_length (p : String) :
    (render_file_line none false (probe_entry p)).length = p.length + 127 := by
  have h1 : ("\x7b\"path\":\"" : String).length = 9 := by decide
  have h2 : ("\", \"size\":\"" : String).length = 11 := by decide
  have h3 : ("\", \"mode\":\"" : String).length = 11 := by decide
  have h4 : ("\", \"is_datafile\":\"" : String).length = 18 := by decide
  have h5 : ("0" : String).length = 1 := by decide
  have h6 : ("\", \"is_cfs\":\"" : String).length = 13 := by decide
  have h7 : ("\", \"crc\":\"" : String).length = 10 := by decide
  have h8 : ("\", \"compress_alg\":\"" : String).length = 19 := by decide
  have h9 : ("none" : String).length = 4 := by decide
  have h10 : ("\", \"external_dir_num\":\"" : String).length = 23 := by decide
  have h11 : ("\"" : String).length = 1 := by decide
  have h12 : ("\x7d\n" : String).length = 2 := by decide
  have h13 : (toString (0 : Int)).length = 1 := by decide
  have h14 : (toString (0 : Nat)).length = 1 := by decide
  simp [render_file_line, probe_entry, choose_path, root_matches, String.length_append,
    BLOCKNUM_INVALID, h1, h2, h3, h4, h5, h6, h7, h8, h9, h10, h11, h12, h13, h14]
  omega

/-- While the incoming lines keep fitting, the loop only accumulates
them into the buffer. -/
theorem filelist_fill (l : String) (hL : l.length = 8192) (rest : List String) :
    ∀ (n : Nat) (buf : List String) (w : Nat), w + n * 8192 ≤ BUFFERSZ →
      filelist_loop (List.replicate n l ++ rest) buf w
        = filelist_loop rest (List.replicate n l ++ buf) (w + n * 8192) := by
  intro n
  induction n with
  | zero => intro buf w _; simp
  | succ k ih =>
    intro buf w hw
    rw [List.replicate_succ, List.cons_append]
    show filelist_loop (l :: (List.replicate k l ++ rest)) buf w = _
    rw [filelist_loop]
    have hfit : w + l.length ≤ BUFFERSZ := by
      simp only [BUFFERSZ, BLCKSZ] at hw ⊢
      omega
    rw [if_pos hfit, hL]
    have := ih (l :: buf) (w + 8192) (by simp only [BUFFERSZ, BLCKSZ] at hw ⊢; omega)
    rw [this]
    have harith : w + 8192 + k * 8192 = w + (k + 1) * 8192 := by ring
    have hlist : List.replicate k l ++ l :: buf = List.replicate (k + 1) l ++ buf := by
      rw [List.replicate_succ']
      simp
    rw [harith, hlist, List.replicate_succ]

/-- An 8065-character path, which makes the rendered line exactly
8192 bytes long, so that 500 lines fill the buffer exactly. -/
def probe_path : String := String.mk (List.replicate 8065 'a')

/-- C1: refuted — the file-list writer does not emit one line per
entry.  For a list of 502 entries whose lines are 8192 bytes each,
only 501 lines reach `backup_content.control`: the line that fails
the `write_len + len <= BUFFERSZ` test is dropped by the flush branch
(`src/catalog.c:700-717` flushes the buffer but never copies the
current line into it). -/
theorem write_backup_filelist_drops_entry :
    (write_backup_filelist_lines none false
        (List.replicate 502 (probe_entry probe_path))).length = 501 ∧
    (List.replicate 502 (probe_entry probe_path)).length = 502 := by
  constructor
  · have hp : probe_path.length = 8065 := by
      simp only [probe_path]
      rw [show (String.mk (List.replicate 8065 'a')).length
            = (List.replicate 8065 'a').length from rfl]
      exact List.length_replicate 8065 'a'
    have hL : (render_file_line none false (probe_entry probe_path)).length = 8192 := by
      rw [render_probe_entry_length, hp]
    unfold write_backup_filelist_lines
    rw [List.map_replicate]
    generalize hl : render_file_line none false (probe_entry probe_path) = l at hL
    have h502 : List.replicate 502 l = List.replicate 500 l ++ [l, l] := by
      rw [show [l, l] = List.replicate 2 l from rfl, ← List.replicate_add]
    rw [h502, filelist_fill l hL [l, l] 500 [] 0 (by norm_num [BUFFERSZ, BLCKSZ])]
    rw [filelist_loop]
    have hno : ¬ (0 + 500 * 8192 + l.length ≤ BUFFERSZ) := by
      rw [hL]; norm_num [BUFFERSZ, BLCKSZ]
    rw [if_neg hno]
    rw [filelist_loop]
    have hyes : (0 : Nat) + l.length ≤ BUFFERSZ := by
      rw [hL]; norm_num [BUFFERSZ, BLCKSZ]
    rw [if_pos hyes]
    rw [filelist_loop]
    rw [if_pos (by rw [hL]; norm_num : (0 : Nat) + l.length > 0)]
    simp only [List.length_append, List.length_reverse, List.length_replicate,
      List.length_cons, List.length_nil, List.append_nil]
  · exact List.length_replicate 502 (probe_entry probe_path)

/-! ## Control file writer (write_backup, src/catalog.c:593-626)

`write_backup` serializes the control data into `<path>.tmp`, then
`fio_fflush || fio_fclose`, then `fio_rename(<path>.tmp, <path>)`;
on a flush/close or rename failure it unlinks the tmp file and
errors.  The model keeps the two paths' contents as an explicit
filesystem state and logs every performed operation in order. -/

/-- The two files `write_backup` can touch: the control file at
`<path>` and the temporary file at `<path>.tmp`. -/
structure CtlFS where
  control : Option String
  tmp : Option String
  deriving Repr, DecidableEq

/-- Outcomes of the fallible `fio_*` calls made by `write_backup`. -/
structure WbEnv where
  open_ok : Bool
  flush_ok : Bool
  close_ok : Bool
  rename_ok : Bool
  deriving Repr, DecidableEq

inductive WbRes where
  | ok
  | err
  deriving Repr, DecidableEq

/-- Operations `write_backup` performs, in order. -/
inductive WbEv where
  | openTmp
  | serialize
  | flushClose
  | renameTmp
  | unlinkTmp
  deriving Repr, DecidableEq

/-- `write_backup`: open `<path>.tmp` (error leaves everything as it
was), serialize into it, flush-and-close, and rename it over
`<path>`; on flush/close or rename failure, unlink the tmp file and
error. -/
def write_backup (env : WbEnv) (content : String) (fs : CtlFS) :
    WbRes × CtlFS × List WbEv :=
  if ¬env.open_ok then
    (.err, fs, [.openTmp])
  else
    let fs1 : CtlFS := { fs with tmp := some content }
    if ¬(env.flush_ok ∧ env.close_ok) then
      (.err, { fs1 with tmp := none },
        [.openTmp, .serialize, .flushClose, .unlinkTmp])
    else if ¬env.rename_ok then
      (.err, { fs1 with tmp := none },
        [.openTmp, .serialize, .flushClose, .renameTmp, .unlinkTmp])
    else
      (.ok, { control := fs1.tmp, tmp := none },
        [.openTmp, .serialize, .flushClose, .renameTmp])

/-- C4: `write_backup` is crash-safe.  On success the operations run
in the order serialize → flush/close → rename, and the control file
holds the new content; on any flush/close or rename failure the tmp
file is unlinked and the previously existing control file is
untouched. -/
theorem write_backup_crash_safe :
    (∀ (env : WbEnv) (content : String) (fs : CtlFS),
      env.open_ok → env.flush_ok → env.close_ok → env.rename_ok →
        write_backup env content fs =
          (.ok, { control := some content, tmp := none },
            [.openTmp, .serialize, .flushClose, .renameTmp])) ∧
    (∀ (env : WbEnv) (content : String) (fs : CtlFS),
      env.open_ok → ¬(env.flush_ok ∧ env.close_ok ∧ env.rename_ok) →
        (write_backup env content fs).1 = .err ∧
        (write_backup env content fs).2.1.control = fs.control ∧
        (write_backup env content fs).2.1.tmp = none ∧
        (write_backup env content fs).2.2.getLast? = some .unlinkTmp) ∧
    (∀ (env : WbEnv) (content : String) (fs : CtlFS),
      ¬env.open_ok → write_backup env content fs = (.err, fs, [.openTmp])) := by
  refine ⟨?_, ?_, ?_⟩
  · intro env content fs h1 h2 h3 h4
    simp [write_backup, h1, h2, h3, h4]
  · intro env content fs h1 h2
    by_cases hf : env.flush_ok <;> by_cases hc : env.close_ok <;>
      by_cases hr : env.rename_ok <;> simp_all [write_backup]
  · intro env content fs h1
    simp [write_backup, h1]

/-- Witness for C4 at concrete environments: a fully successful run
installs the new content, and a run whose rename fails leaves the old
control file and no tmp file. -/
theorem write_backup_crash_safe_witness :
    write_backup ⟨true, true, true, true⟩ "status = OK"
        ⟨some "status = RUNNING", none⟩ =
      (.ok, { control := some "status = OK", tmp := none },
        [.openTmp, .serialize, .flushClose, .renameTmp]) ∧
    ((write_backup ⟨true, true, true, false⟩ "status = OK"
        ⟨some "status = RUNNING", none⟩).1 = .err ∧
      (write_backup ⟨true, true, true, false⟩ "status = OK"
        ⟨some "status = RUNNING", none⟩).2.1.control = some "status = RUNNING" ∧
      (write_backup ⟨true, true, true, false⟩ "status = OK"
        ⟨some "status = RUNNING", none⟩).2.1.tmp = none ∧
      (write_backup ⟨true, true, true, false⟩ "status = OK"
        ⟨some "status = RUNNING", none⟩).2.2.getLast? = some .unlinkTmp) ∧
    write_backup ⟨false, true, true, true⟩ "status = OK"
        ⟨some "status = RUNNING", none⟩ =
      (.err, ⟨some "status = RUNNING", none⟩, [.openTmp]) := by
  refine ⟨?_, ?_, ?_⟩
  · exact write_backup_crash_safe.1 ⟨true, true, true, true⟩ "status = OK"
      ⟨some "status = RUNNING", none⟩ rfl rfl rfl rfl
  · exact write_backup_crash_safe.2.1 ⟨true, true, true, false⟩ "status = OK"
      ⟨some "status = RUNNING", none⟩ rfl (by simp)
  · exact write_backup_crash_safe.2.2 ⟨false, true, true, true⟩ "status = OK"
      ⟨some "status = RUNNING", none⟩ (by simp)

/-! ## Lockfile protocol (lock_backup, src/catalog.c:97-282)

`lock_backup` loops: it tries to create `backup.pid` with
`O_CREAT|O_EXCL`; on failure it errors unless `errno` is `EEXIST` or
`EACCES` and `ntries <= 100`; it then reads the stored PID, and
* if the PID differs from the caller's own and parent PID and the
  zero-signal probe succeeds, returns `false` (busy);
* if that probe fails with `ESRCH`, or the PID equals the caller's
  own or parent PID, unlinks the stale file and retries.
The environment records, for every iteration index, what each
external call would return. -/

/-- Result of `fio_open(lock_file, O_RDWR|O_CREAT|O_EXCL, ...)`. -/
inductive CreateRes where
  | ok
  | eexist
  | eacces
  | othererr
  deriving Repr, DecidableEq

/-- Combined result of re-opening and reading the lockfile: the open
may fail with `ENOENT` (race: retry) or another errno (error); the
read may fail, be empty, or hold bogus non-positive data; otherwise
it yields the stored PID (> 0). -/
inductive ReadPidRes where
  | openENOENT
  | openFail
  | readFail
  | empty
  | bogus
  | pid (p : Nat)
  deriving Repr, DecidableEq

/-- Result of `kill(encoded_pid, 0)`. -/
inductive ProbeRes where
  | alive
  | esrch
  | eperm
  deriving Repr, DecidableEq

/-- Per-iteration oracle for every external call `lock_backup` makes. -/
structure LockEnv where
  my_pid : Nat
  my_p_pid : Nat
  create : Nat → CreateRes
  readPid : Nat → ReadPidRes
  probe : Nat → ProbeRes
  unlinkOk : Nat → Bool
  fillOk : Bool

inductive LockRes where
  | acquired
  | busy
  | err
  deriving Repr, DecidableEq

/-- The retry loop of `lock_backup`, with `ntries` counting the
iterations as in the C `for (ntries = 0;; ntries++)` loop.  `fillOk`
abstracts the write/flush/close of the PID into the freshly created
file (each of whose failures unlinks the file and errors). -/
def lock_try (env : LockEnv) (ntries : Nat) : LockRes :=
  match env.create ntries with
  | .ok => if env.fillOk then .acquired else .err
  | .othererr => .err
  | _ =>
    if _h : ntries > 100 then .err
    else
      match env.readPid ntries with
      | .openENOENT => lock_try env (ntries + 1)
      | .openFail => .err
      | .readFail => .err
      | .empty => .err
      | .bogus => .err
      | .pid p =>
        if p ≠ env.my_pid ∧ p ≠ env.my_p_pid then
          match env.probe ntries with
          | .alive => .busy
          | .eperm => .err
          | .esrch => if env.unlinkOk ntries then lock_try env (ntries + 1) else .err
        else
          if env.unlinkOk ntries then lock_try env (ntries + 1) else .err
termination_by 101 - ntries
decreasing_by all_goals omega

/-- `lock_backup` enters the loop with `ntries = 0`. -/
def lock_backup (env : LockEnv) : LockRes :=
  lock_try env 0

/-- C3: the lockfile protocol.  (1) When the lockfile exists and its
PID belongs to a live process other than the caller or its parent,
`lock_backup` reports busy rather than erroring.  (2) When the stored
PID is the caller's own or its parent's, or the liveness probe says
no such process, the stale file is unlinked and creation is retried
(the run continues at the next iteration).  (3) Once more than 100
creation attempts have failed, the next failure is an error,
whatever its errno.  (4) Hence a run whose creation attempts all fail
(with a retryable errno) ends in an error. -/
theorem lock_backup_claim :
    (∀ (env : LockEnv) (n p : Nat), n ≤ 100 →
      (env.create n = .eexist ∨ env.create n = .eacces) →
      env.readPid n = .pid p →
      p ≠ env.my_pid → p ≠ env.my_p_pid →
      env.probe n = .alive →
      lock_try env n = .busy) ∧
    (∀ (env : LockEnv) (n p : Nat), n ≤ 100 →
      (env.create n = .eexist ∨ env.create n = .eacces) →
      env.readPid n = .pid p →
      (p = env.my_pid ∨ p = env.my_p_pid ∨ env.probe n = .esrch) →
      env.unlinkOk n = true →
      lock_try env n = lock_try env (n + 1)) ∧
    (∀ (env : LockEnv), env.create 101 ≠ .ok → lock_try env 101 = .err) ∧
    (∀ (env : LockEnv), (∀ n, env.create n = .eacces) →
      (∀ n, env.readPid n = .openENOENT) → lock_backup env = .err) := by
  refine ⟨?_, ?_, ?_, ?_⟩
  · intro env n p hn h2 h3 h4 h5 h6
    have h100 : ¬ (n > 100) := by omega
    rcases h2 with h2 | h2 <;>
      (rw [lock_try]; simp [h2, h3, h4, h5, h6, h100])
  · intro env n p hn h2 h3 h4 h5
    have h100 : ¬ (n > 100) := by omega
    rcases h2 with h2 | h2 <;>
      (rw [lock_try]
       by_cases hp1 : p = env.my_pid
       · simp [h2, h3, h100, hp1, h5]
       · by_cases hp2 : p = env.my_p_pid
         · simp [h2, h3, h100, hp1, hp2, h5]
         · have hes : env.probe n = .esrch := by tauto
           simp [h2, h3, h100, hp1, hp2, h5, hes])
  · intro env h
    rw [lock_try]
    rcases hc : env.create 101 with _ | _ | _ | _ <;> simp_all
  · intro env hcr hrd
    have key : ∀ m n, 101 - n ≤ m → lock_try env n = .err := by
      intro m
      induction m with
      | zero =>
        intro n hn
        rw [lock_try]
        have : n > 100 := by omega
        simp [hcr n, hrd n, this]
      | succ k ih =>
        intro n hn
        by_cases hbig : n > 100
        · rw [lock_try]
          simp [hcr n, hrd n, hbig]
        · rw [lock_try]
          simp [hcr n, hrd n, hbig]
          exact ih (n + 1) (by omega)
    exact key 101 0 (by omega)

/-- A lockfile held by live process 42, foreign to caller 10/5. -/
def busy_env : LockEnv :=
  { my_pid := 10, my_p_pid := 5,
    create := fun _ => .eexist, readPid := fun _ => .pid 42,
    probe := fun _ => .alive, unlinkOk := fun _ => true, fillOk := true }

/-- A lockfile holding the caller's own PID (stale after a reboot). -/
def stale_env : LockEnv :=
  { my_pid := 10, my_p_pid := 5,
    create := fun n => if n = 0 then .eexist else .ok,
    readPid := fun _ => .pid 10,
    probe := fun _ => .alive, unlinkOk := fun _ => true, fillOk := true }

/-- An unwritable backup directory: every creation attempt gets
`EACCES` and the lockfile never exists. -/
def denied_env : LockEnv :=
  { my_pid := 10, my_p_pid := 5,
    create := fun _ => .eacces, readPid := fun _ => .openENOENT,
    probe := fun _ => .alive, unlinkOk := fun _ => true, fillOk := true }

/-- Witness for C3 at the three concrete environments above. -/
theorem lock_backup_claim_witness :
    lock_try busy_env 0 = .busy ∧
    lock_try stale_env 0 = lock_try stale_env 1 ∧
    lock_try denied_env 101 = .err ∧
    lock_backup denied_env = .err := by
  refine ⟨?_, ?_, ?_, ?_⟩
  · exact lock_backup_claim.1 busy_env 0 42 (by norm_num) (Or.inl rfl) rfl
      (by decide) (by decide) rfl
  · exact lock_backup_claim.2.1 stale_env 0 10 (by norm_num) (Or.inl rfl) rfl
      (Or.inl rfl) rfl
  · exact lock_backup_claim.2.2.1 denied_env (by decide)
  · exact lock_backup_claim.2.2.2 denied_env (fun _ => rfl) (fun _ => rfl)

/-! ## Parent chains (is_parent and scan_parent_chain, src/catalog.c)

In-memory backups with resolved `parent_backup_link` pointers form
finite chains, represented by an inductive type: `base` is a backup
whose link is NULL, `node` one whose link points to its parent.
Every backup carries its `start_time`, its recorded
`parent-backup-id` field (`parent_backup`, 0 when absent), its mode
and its status. -/

inductive PgBk where
  | base (start_time parent_backup : Nat) (mode : BackupMode) (status : BackupStatus)
  | node (start_time parent_backup : Nat) (mode : BackupMode) (status : BackupStatus)
      (parent : PgBk)
  deriving Repr, DecidableEq

def PgBk.start_time : PgBk → Nat
  | .base st _ _ _ => st
  | .node st _ _ _ _ => st

def PgBk.parent_backup : PgBk → Nat
  | .base _ pb _ _ => pb
  | .node _ pb _ _ _ => pb

def PgBk.backup_mode : PgBk → BackupMode
  | .base _ _ m _ => m
  | .node _ _ m _ _ => m

def PgBk.status : PgBk → BackupStatus
  | .base _ _ _ s => s
  | .node _ _ _ s _ => s

/-- The `while` loop of `is_parent` (src/catalog.c:1226-1233): walk
the links while the current node's recorded parent id differs from
`t`; afterwards report whether the final node's recorded parent id
equals `t`. -/
def is_parent_loop (t : Nat) : PgBk → Bool
  | .base _ pb _ _ => pb == t
  | .node _ pb _ _ p => if pb ≠ t then is_parent_loop t p else true

/-- `is_parent` (src/catalog.c:1217-1239): with `inclusive`, a
backup whose own start time is `t` counts as its own parent. -/
def is_parent (t : Nat) (c : PgBk) (inclusive : Bool) : Bool :=
  if inclusive && c.start_time == t then true else is_parent_loop t c

/-- The nodes reachable from `c` through parent links, nearest
first. -/
def PgBk.ancestors : PgBk → List PgBk
  | .base _ _ _ _ => []
  | .node _ _ _ _ p => p :: p.ancestors

/-- Resolved parent links: every link points to a node whose start
time is the recorded parent id, and a node without a link records no
parent (`parent_backup = 0`).  This is the state produced by the
catalog's link resolution after enumeration. -/
def PgBk.resolved : PgBk → Bool
  | .base _ pb _ _ => pb == 0
  | .node _ pb _ _ p => p.start_time == pb && p.resolved

/-- On resolved chains, the loop of `is_parent` finds exactly the
nonzero ancestor start times. -/
theorem is_parent_loop_iff (t : Nat) (c : PgBk)
    (hres : c.resolved = true) (ht : t ≠ 0) :
    is_parent_loop t c = true ↔ ∃ a ∈ c.ancestors, a.start_time = t := by
  induction c with
  | base st pb m s =>
    simp only [is_parent_loop, PgBk.ancestors, PgBk.resolved] at *
    simp only [beq_iff_eq] at hres ⊢
    subst hres
    simp [Ne.symm ht]
  | node st pb m s p ih =>
    simp only [PgBk.resolved, Bool.and_eq_true, beq_iff_eq] at hres
    obtain ⟨hst, hres'⟩ := hres
    by_cases hpb : pb = t
    · subst hpb
      simp [is_parent_loop, PgBk.ancestors, hst]
    · simp only [is_parent_loop, PgBk.ancestors]
      rw [if_pos hpb]
      rw [ih hres']
      constructor
      · rintro ⟨a, ha, hat⟩
        exact ⟨a, List.mem_cons_of_mem _ ha, hat⟩
      · rintro ⟨a, ha, hat⟩
        rcases List.mem_cons.mp ha with h | h
        · subst h; exact absurd (hst.symm.trans hat) hpb
        · exact ⟨a, h, hat⟩

/-- C7 (amended): for every backup `c` with resolved parent links and
every nonzero timestamp `t`, `is_parent(t, c, inclusive=true)` is
true iff some walk from `c` through parent links reaches a node with
start time `t`, or `c`'s own start time is `t`.  The restriction to
nonzero `t` is forced by the counterexample below: `t = 0` always
matches the chain root's empty `parent_backup` field. -/
theorem is_parent_iff_ancestor (t : Nat) (c : PgBk)
    (hres : c.resolved = true) (ht : t ≠ 0) :
    is_parent t c true = true ↔
      ((∃ a ∈ c.ancestors, a.start_time = t) ∨ c.start_time = t) := by
  unfold is_parent
  by_cases hself : c.start_time = t
  · simp [hself]
  · simp only [Bool.true_and, beq_iff_eq, hself, if_false]
    rw [is_parent_loop_iff t c hres ht]
    simp [hself]

/-- C7 (counterexample to the claim as stated): for the timestamp
`t = 0` and a resolved single-node chain (a FULL backup with start
time 5 and no parent), `is_parent` returns true although no node of
the walk has start time 0: the loop's final test compares the root's
`parent_backup` field (0 when no parent is recorded) against `t`. -/
theorem is_parent_zero_counterexample :
    (PgBk.base 5 0 .FULL .OK).resolved = true ∧
    is_parent 0 (PgBk.base 5 0 .FULL .OK) true = true ∧
    ¬((∃ a ∈ (PgBk.base 5 0 .FULL .OK).ancestors, a.start_time = 0) ∨
      (PgBk.base 5 0 .FULL .OK).start_time = 0) := by
  refine ⟨rfl, rfl, ?_⟩
  simp [PgBk.ancestors, PgBk.start_time]

/-- A status that `scan_parent_chain` considers invalid: neither OK
nor DONE. -/
def bad_status (s : BackupStatus) : Bool :=
  s != .OK && s != .DONE

/-- The walk of `scan_parent_chain` (src/catalog.c:1172-1181): move
to the root, remembering the most recently seen (= oldest) node with
an invalid status among the nodes that still have a link. -/
def scan_loop : PgBk → Option PgBk → PgBk × Option PgBk
  | .base st pb m s, inv => (.base st pb m s, inv)
  | .node st pb m s p, inv =>
      scan_loop p (if bad_status s then some (.node st pb m s p) else inv)

/-- `scan_parent_chain` (src/catalog.c:1161-1208): returns 0 with
the oldest existing backup when the root of the chain is not FULL,
1 with the oldest invalid backup when one exists, 2 with the base
FULL backup otherwise.  The root's own status is checked separately
(it is skipped by the loop). -/
def scan_parent_chain (c : PgBk) : Nat × PgBk :=
  let r := scan_loop c none
  let inv := if r.1.backup_mode = .FULL ∧ bad_status r.1.status then some r.1 else r.2
  if r.1.backup_mode ≠ .FULL then (0, r.1)
  else
    match inv with
    | some w => (1, w)
    | none => (2, r.1)

/-- The root of a chain: the node reached by following every link. -/
def chain_root : PgBk → PgBk
  | .base st pb m s => .base st pb m s
  | .node _ _ _ _ p => chain_root p

/-- The nodes of the walk that still have a link (everything except
the root), in walk order. -/
def nonroot_nodes : PgBk → List PgBk
  | .base _ _ _ _ => []
  | .node st pb m s p => PgBk.node st pb m s p :: nonroot_nodes p

/-- The accumulator update performed by `scan_loop`, as a fold. -/
def oldest_bad (l : List PgBk) (inv : Option PgBk) : Option PgBk :=
  l.foldl (fun acc b => if bad_status b.status then some b else acc) inv

theorem scan_loop_eq (c : PgBk) (inv : Option PgBk) :
    scan_loop c inv = (chain_root c, oldest_bad (nonroot_nodes c) inv) := by
  induction c generalizing inv with
  | base st pb m s => rfl
  | node st pb m s p ih =>
    show scan_loop p _ = _
    rw [ih]
    rfl

theorem oldest_bad_eq (l : List PgBk) :
    ∀ inv : Option PgBk,
      oldest_bad l inv =
        match (l.filter (fun b => bad_status b.status)).getLast? with
        | some w => some w
        | none => inv := by
  induction l with
  | nil => intro inv; rfl
  | cons a l ih =>
    intro inv
    show oldest_bad l (if bad_status a.status then some a else inv) = _
    rw [ih]
    by_cases hb : bad_status a.status
    · simp only [hb, if_true, List.filter_cons_of_pos]
      cases hl : (l.filter (fun b => bad_status b.status)).getLast? with
      | some w => simp [List.getLast?_cons, hl]
      | none =>
        have : l.filter (fun b => bad_status b.status) = [] :=
          List.getLast?_eq_none_iff.mp hl
        simp [this]
    · simp [List.filter_cons, hb]

theorem chain_nodes_eq (c : PgBk) :
    c :: c.ancestors = nonroot_nodes c ++ [chain_root c] := by
  induction c with
  | base st pb m s => rfl
  | node st pb m s p ih =>
    show PgBk.node st pb m s p :: (p :: p.ancestors) = _
    rw [ih]
    rfl

/-- C8: `scan_parent_chain` walks to the root and returns exactly
one of three results with its witness: 0 with the oldest existing
backup when the root is not FULL; 1 with the oldest node of the walk
whose status is neither OK nor DONE when such a node exists; 2 with
the base FULL backup otherwise. -/
theorem scan_parent_chain_claim (c : PgBk) :
    scan_parent_chain c =
      if (chain_root c).backup_mode ≠ .FULL then (0, chain_root c)
      else
        match ((c :: c.ancestors).filter (fun b => bad_status b.status)).getLast? with
        | some w => (1, w)
        | none => (2, chain_root c) := by
  unfold scan_parent_chain
  rw [scan_loop_eq, oldest_bad_eq]
  rw [chain_nodes_eq, List.filter_append]
  by_cases hfull : (chain_root c).backup_mode = .FULL
  · by_cases hbad : bad_status (chain_root c).status
    · simp only [hfull, hbad, List.filter_cons_of_pos, List.filter_nil]
      rw [List.getLast?_concat]
      simp [hfull, hbad]
    · rw [show (([chain_root c] : List PgBk).filter (fun b => bad_status b.status)) = []
          from by simp [hbad]]
      rw [List.append_nil]
      simp only [hfull, hbad]
      cases hl : ((nonroot_nodes c).filter (fun b => bad_status b.status)).getLast? with
      | some w => simp [hfull, hbad, hl]
      | none => simp [hfull, hbad, hl]
  · simp [hfull]

/-- Witness for C7 (amended) at a concrete two-node resolved chain:
the DELTA backup started at 9 has the FULL backup started at 5 as an
ancestor, and `is_parent 5` confirms it. -/
theorem is_parent_iff_ancestor_witness :
    is_parent 5 (PgBk.node 9 5 .DELTA .OK (PgBk.base 5 0 .FULL .OK)) true = true :=
  (is_parent_iff_ancestor 5
      (PgBk.node 9 5 .DELTA .OK (PgBk.base 5 0 .FULL .OK)) rfl (by decide)).mpr
    (Or.inl ⟨PgBk.base 5 0 .FULL .OK, by simp [PgBk.ancestors, PgBk.start_time]⟩)

/-! ## Page codec (src/data.c)

Pages are modelled by their header fields (the first 24 bytes of a
page, `PageHeaderData`) plus the remaining bytes.  `pd_lsn` is the
64-bit LSN stored in the first 8 bytes as `{u32 xlogid; u32 xrecoff}`
(value `xlogid << 32 | xrecoff`), so on a little-endian machine the
first byte of the page is the low byte of `xlogid`, i.e. bits 32-39
of the LSN. -/

def SizeOfPageHeaderData : Nat := 24

/-- The header fields of `PageHeaderData` plus the rest of the page's
bytes. -/
structure Page where
  pd_lsn : Nat
  pd_checksum : Nat
  pd_flags : Nat
  pd_lower : Nat
  pd_upper : Nat
  pd_special : Nat
  pd_pagesize_version : Nat
  pd_prune_xid : Nat
  body : List Nat
  deriving Repr, DecidableEq

/-- The header validation of `parse_page` (src/data.c:169-188):
page size is `BLCKSZ`, only valid flag bits (`PD_VALID_FLAG_BITS =
0x0007` in a 16-bit field), `pd_lower/pd_upper/pd_special` are
ordered and within the page, and `pd_special` is maximally aligned. -/
def parse_page_valid (p : Page) : Bool :=
  decide (p.pd_pagesize_version &&& 0xFF00 = BLCKSZ ∧
    p.pd_flags &&& 0xFFF8 = 0 ∧
    SizeOfPageHeaderData ≤ p.pd_lower ∧
    p.pd_lower ≤ p.pd_upper ∧
    p.pd_upper ≤ p.pd_special ∧
    p.pd_special ≤ BLCKSZ ∧
    p.pd_special = MAXALIGN p.pd_special)

/-- Every byte of the page is zero (src/data.c:236: the empty-page
check scans all of the page's bytes). -/
def page_all_zero (p : Page) : Bool :=
  decide (p.pd_lsn = 0 ∧ p.pd_checksum = 0 ∧ p.pd_flags = 0 ∧ p.pd_lower = 0 ∧
    p.pd_upper = 0 ∧ p.pd_special = 0 ∧ p.pd_pagesize_version = 0 ∧
    p.pd_prune_xid = 0) && p.body.all (fun b => b == 0)

/-- `*(char*)page`: the first raw byte of the page, which is bits
32-39 of the stored LSN under the little-endian on-disk layout. -/
def page_first_byte (p : Page) : Nat := p.pd_lsn / 2 ^ 32 % 256

/-- What `fio_pread` returns for one attempt: zero bytes (truncated),
a short read, or a full `BLCKSZ` page. -/
inductive DiskRead where
  | zeroLen
  | shortRead (n : Nat)
  | page (p : Page)
  deriving Repr, DecidableEq

/-- `read_page_from_file` (src/data.c:196-279): returns 0 when the
read comes back empty (truncated file), 1 for a valid page (or an
all-zero page, or when checksums are disabled), -1 for a short read,
an unparsable non-zero page, or a checksum mismatch.  `cksum` is the
`pg_checksum_page` function (its algorithm lives outside this
repository), `lsn0` the previous value of the `page_lsn` out
parameter, which `parse_page` overwrites with the page's LSN. -/
def read_page_from_file (cksum : Page → Nat → Nat) (checksum_version : Nat)
    (segno blknum : Nat) (d : DiskRead) (lsn0 : Nat) : Int × Nat :=
  match d with
  | .zeroLen => (0, lsn0)
  | .shortRead _ => (-1, lsn0)
  | .page p =>
    if ¬ parse_page_valid p then
      if page_all_zero p then (1, p.pd_lsn) else (-1, p.pd_lsn)
    else if checksum_version ≠ 0 then
      if cksum p (segno * RELSEG_SIZE + blknum) = p.pd_checksum then (1, p.pd_lsn)
      else (-1, p.pd_lsn)
    else (1, p.pd_lsn)

/-- The loop state of `prepare_page`'s read-retry phase. -/
structure RetrySt where
  page_is_valid : Bool
  page_is_truncated : Bool
  page_lsn : Nat
  deriving Repr, DecidableEq

/-- The read-retry loop of `prepare_page` (src/data.c:319-349):
up to `try_again = 100` reads; a zero-length read marks the page
truncated-and-valid; result 1 marks it valid; on a failed read the
loop breaks out early when ptrack support is available in a strict
run (the page is then fetched via SQL instead). -/
def read_retry (cksum : Page → Nat → Nat) (checksum_version : Nat)
    (segno blknum : Nat) (reads : Nat → DiskRead) (ptrack_support strict : Bool) :
    Nat → Nat → Nat → RetrySt
  | _, 0, lsn => ⟨false, false, lsn⟩
  | attempt, tryAgain + 1, lsn =>
    let r := read_page_from_file cksum checksum_version segno blknum (reads attempt) lsn
    if r.1 = 0 then ⟨true, true, r.2⟩
    else if r.1 = 1 then ⟨true, false, r.2⟩
    else if ptrack_support && strict then ⟨false, false, r.2⟩
    else read_retry cksum checksum_version segno blknum reads ptrack_support strict
      (attempt + 1) tryAgain r.2

/-- What `pg_ptrack_get_block` returns: NULL (truncated block), a
buffer of the wrong size (fatal), or a page image. -/
inductive PtrackRes where
  | absent
  | wrongSize (n : Nat)
  | fetched (p : Page)
  deriving Repr, DecidableEq

/-- Oracle environment for the data-file engine: per-(block, attempt)
disk reads, the checksum function, per-block ptrack fetches, ptrack
availability, the cluster checksum version, and the per-block return
value of `do_compress`. -/
structure BkEnv where
  reads : Nat → Nat → DiskRead
  cksum : Page → Nat → Nat
  ptrack : Nat → PtrackRes
  is_ptrack_support : Bool
  checksum_version : Nat
  comp : Nat → Int

/-- The `pgFile` fields `prepare_page` consults. -/
structure FileInfo where
  segno : Nat
  exists_in_prev : Bool
  deriving Repr, DecidableEq

/-- The decision part of `prepare_page` after the read-retry phase
produced `st` (for non-PTRACK modes) or was skipped (PTRACK, `st` is
all-false).  Mirrors src/data.c:355-434: fatal corruption for strict
backups without ptrack support; early return for checkdb; the ptrack
fetch; the DELTA skip test; the truncation result. -/
def prepare_page_decide (E : BkEnv) (file : FileInfo) (prev_backup_start_lsn : Nat)
    (blknum : Nat) (backup_mode : BackupMode) (strict : Bool) (st : RetrySt) :
    Except Unit Int :=
  if backup_mode ≠ .PTRACK ∧ ¬st.page_is_valid ∧ strict ∧ ¬E.is_ptrack_support then
    .error ()
  else if backup_mode ≠ .PTRACK ∧ ¬strict then
    if st.page_is_valid then .ok 0 else .ok PageIsCorrupted
  else if backup_mode = .PTRACK ∨ (¬st.page_is_valid ∧ E.is_ptrack_support) then
    match E.ptrack blknum with
    | .wrongSize _ => .error ()
    | .absent => .ok PageIsTruncated
    | .fetched p =>
      if backup_mode = .DELTA ∧ file.exists_in_prev ∧ ¬parse_page_valid p then
        .error ()
      else
        let lsn := if backup_mode = .DELTA ∧ file.exists_in_prev then p.pd_lsn
          else st.page_lsn
        if backup_mode = .DELTA ∧ file.exists_in_prev ∧ lsn ≠ 0 ∧
            lsn < prev_backup_start_lsn then
          .ok SkipCurrentPage
        else .ok 0
  else
    if backup_mode = .DELTA ∧ file.exists_in_prev ∧ ¬st.page_is_truncated ∧
        st.page_lsn ≠ 0 ∧ st.page_lsn < prev_backup_start_lsn then
      .ok SkipCurrentPage
    else if st.page_is_truncated then .ok PageIsTruncated
    else .ok 0

def prepare_page (E : BkEnv) (file : FileInfo) (prev_backup_start_lsn : Nat)
    (blknum : Nat) (backup_mode : BackupMode) (strict : Bool) : Except Unit Int :=
  prepare_page_decide E file prev_backup_start_lsn blknum backup_mode strict
    (if backup_mode ≠ .PTRACK then
      read_retry E.cksum E.checksum_version file.segno blknum (E.reads blknum)
        E.is_ptrack_support strict 0 100 0
    else ⟨false, false, 0⟩)

/-- What the payload of a written frame is: nothing (truncation
sentinel), the compressor's output, or the raw page. -/
inductive PayloadKind where
  | headerOnly
  | compressedBytes
  | rawPage
  deriving Repr, DecidableEq

/-- A written page frame: the `BackupPageHeader` fields plus what the
payload holds. -/
structure Frame where
  block : Nat
  compressed_size : Int
  kind : PayloadKind
  deriving Repr, DecidableEq

/-- Result of `compress_and_backup_page`: the frame (none when the
page is skipped), the number of bytes fed to the file's CRC-32
accumulator, and the number of bytes written — the C code passes the
same `write_buffer, write_buffer_size` pair to `COMP_FILE_CRC32` and
to `fio_fwrite`. -/
structure CbpOut where
  frame : Option Frame
  crc_bytes : Nat
  written_bytes : Nat
  deriving Repr, DecidableEq

/-- `compress_and_backup_page` (src/data.c:436-513): a skipped page
produces no output; a truncated page produces a header-only frame
with `compressed_size = PageIsTruncated`; otherwise the page is
compressed, and the result is stored compressed only when
`0 < compressed_size < BLCKSZ` (with `MAXALIGN` padding) — for any
other compressor return value the raw page is written with
`compressed_size = BLCKSZ`. -/
def compress_and_backup_page (comp_ret : Int) (blknum : Nat) (page_state : Int) : CbpOut :=
  if page_state = SkipCurrentPage then ⟨none, 0, 0⟩
  else if page_state = PageIsTruncated then
    ⟨some ⟨blknum, PageIsTruncated, .headerOnly⟩, BackupPageHeaderSize, BackupPageHeaderSize⟩
  else if 0 < comp_ret ∧ comp_ret < (BLCKSZ : Int) then
    ⟨some ⟨blknum, comp_ret, .compressedBytes⟩,
      BackupPageHeaderSize + MAXALIGN comp_ret.toNat,
      BackupPageHeaderSize + MAXALIGN comp_ret.toNat⟩
  else
    ⟨some ⟨blknum, (BLCKSZ : Int), .rawPage⟩,
      BackupPageHeaderSize + BLCKSZ, BackupPageHeaderSize + BLCKSZ⟩

/-- The per-file block loop of `backup_data_file`
(src/data.c:632-666): for each candidate block, `prepare_page`, then
`compress_and_backup_page`; `n_blocks_skipped` counts skipped pages,
`n_blocks_read` every processed block; iteration stops after a
truncated page.  The same loop body serves the FULL/DELTA loop over
`0 ..< nblocks` and the PAGE/PTRACK loop over the page map, so the
candidate blocks are a parameter. -/
def backup_loop (E : BkEnv) (file : FileInfo) (prev_lsn : Nat) (mode : BackupMode) :
    List Nat → List Frame → Nat → Nat → Except Unit (List Frame × Nat × Nat)
  | [], frames, n_read, n_skipped => .ok (frames, n_read, n_skipped)
  | b :: rest, frames, n_read, n_skipped =>
    match prepare_page E file prev_lsn b mode true with
    | .error e => .error e
    | .ok st =>
      let out := compress_and_backup_page (E.comp b) b st
      let frames' := frames ++ (match out.frame with | some f => [f] | none => [])
      let n_skipped' := if st = SkipCurrentPage then n_skipped + 1 else n_skipped
      let n_read' := n_read + 1
      if st = PageIsTruncated then .ok (frames', n_read', n_skipped')
      else backup_loop E file prev_lsn mode rest frames' n_read' n_skipped'

/-- `CompressAlg` (none/pglz/zlib plus the unset value). -/
inductive CompressAlg where
  | NOT_DEFINED
  | NONE
  | PGLZ
  | ZLIB
  deriving Repr, DecidableEq

def ZLIB_MAGIC : Nat := 0x78

/-- `page_may_be_compressed` (src/data.c:130-166): only pages that
fail header validation are candidates; backups from version 2.0.23
on never hit the legacy bug, so return false; for zlib a first byte
other than the zlib magic 0x78 rules compression out; otherwise try
decompression. -/
def page_may_be_compressed (p : Page) (alg : CompressAlg) (backup_version : Nat) : Bool :=
  if ¬ parse_page_valid p then
    if backup_version ≥ 20023 then false
    else if alg = .ZLIB ∧ page_first_byte p ≠ ZLIB_MAGIC then false
    else true
  else false

/-- The decompression condition of `restore_data_file`
(src/data.c:830-832): decompress when the stored size differs from
`BLCKSZ`, or when the legacy heuristic fires. -/
def need_decompress (cs : Int) (payload : Page) (alg : CompressAlg)
    (backup_version : Nat) : Bool :=
  cs != (BLCKSZ : Int) || page_may_be_compressed payload alg backup_version

/-- The `pgFile` fields `restore_data_file` consults. -/
structure RFile where
  write_size : Int
  n_blocks : Int
  compress_alg : CompressAlg
  deriving Repr, DecidableEq

/-- A frame as read back from a backup data file; the payload is the
stored page image (interpreted through the page layout when probed
by the legacy heuristic). -/
structure RFrame where
  block : Nat
  compressed_size : Int
  payload : Page
  deriving Repr, DecidableEq

/-- One page written into the restore target: at block `block`,
either the decompressed page or the stored bytes as-is. -/
structure RWrite where
  block : Nat
  decompressed : Bool
  deriving Repr, DecidableEq

/-- The `elog(ERROR, ...)` exits of the restore loop that the model
distinguishes: "Backup is broken at block %u" for an out-of-order
frame, and a decompression result other than `BLCKSZ`. -/
inductive RsErr where
  | brokenBackup
  | badUncompressedSize
  deriving Repr, DecidableEq

/-- The frame loop of `restore_data_file` (src/data.c:749-884).  Per
iteration: nothing to do for an unchanged file (`BYTES_INVALID`);
truncate when the applied block count reaches a DELTA backup's
recorded `n_blocks`; stop at end of input; skip an all-zero header
(block 0 with compressed size 0); fail when a frame's block number
is below the previously applied one; truncate at a
`PageIsTruncated` sentinel; otherwise decompress if `need_decompress`
says so (the decompressed size must be `BLCKSZ`) and write the page.
`dec_size` is the oracle for `do_decompress`'s return value; the
result pairs the performed writes with the truncation point. -/
def restore_loop (dec_size : RFrame → Int) (backup_version : Nat) (file : RFile) :
    List RFrame → Nat → List RWrite → Except RsErr (List RWrite × Option Nat)
  | frames, blknum, ws =>
    if file.write_size = BYTES_INVALID then .ok (ws, none)
    else if file.n_blocks ≠ BLOCKNUM_INVALID ∧ file.n_blocks < ((blknum : Int) + 1) then
      .ok (ws, some blknum)
    else
      match frames with
      | [] => .ok (ws, none)
      | f :: rest =>
        if f.block = 0 ∧ f.compressed_size = 0 then
          restore_loop dec_size backup_version file rest blknum ws
        else if f.block < blknum then .error .brokenBackup
        else if f.compressed_size = PageIsTruncated then .ok (ws, some f.block)
        else if need_decompress f.compressed_size f.payload file.compress_alg
            backup_version then
          if dec_size f ≠ (BLCKSZ : Int) then .error .badUncompressedSize
          else restore_loop dec_size backup_version file rest f.block (ws ++ [⟨f.block, true⟩])
        else restore_loop dec_size backup_version file rest f.block (ws ++ [⟨f.block, false⟩])

/-- A first read that yields a parsable page with a matching
checksum ends the retry loop at once, valid and not truncated. -/
theorem read_retry_first_ok (cksum : Page → Nat → Nat) (cv segno b : Nat)
    (reads : Nat → DiskRead) (pt strict : Bool) (p : Page)
    (h1 : reads 0 = .page p)
    (h2 : parse_page_valid p = true)
    (h3 : cv ≠ 0 → cksum p (segno * RELSEG_SIZE + b) = p.pd_checksum) :
    read_retry cksum cv segno b reads pt strict 0 100 0 = ⟨true, false, p.pd_lsn⟩ := by
  rw [show (100 : Nat) = 99 + 1 from rfl, read_retry, h1]
  by_cases hcv : cv = 0
  · simp [read_page_from_file, h2, hcv]
  · simp [read_page_from_file, h2, hcv, h3 hcv]

/-- A first read that returns zero bytes ends the retry loop at
once: the page is marked truncated (and treated as valid). -/
theorem read_retry_first_zero (cksum : Page → Nat → Nat) (cv segno b : Nat)
    (reads : Nat → DiskRead) (pt strict : Bool)
    (h1 : reads 0 = .zeroLen) :
    read_retry cksum cv segno b reads pt strict 0 100 0 = ⟨true, true, 0⟩ := by
  rw [show (100 : Nat) = 99 + 1 from rfl, read_retry, h1]
  simp [read_page_from_file]

/-- C5: every frame written by `compress_and_backup_page` carries
`compressed_size ≤ BLCKSZ`, and the CRC accumulator is updated over
exactly the bytes written for the frame; in particular a non-positive
compressor return value makes the raw page be written with
`compressed_size` set to the page size.  (A skipped page writes no
frame at all.) -/
theorem compress_and_backup_page_claim :
    ∀ (comp_ret : Int) (blknum : Nat) (page_state : Int),
      (page_state = SkipCurrentPage →
        compress_and_backup_page comp_ret blknum page_state = ⟨none, 0, 0⟩) ∧
      (page_state ≠ SkipCurrentPage →
        ∃ f, (compress_and_backup_page comp_ret blknum page_state).frame = some f ∧
          f.block = blknum ∧ f.compressed_size ≤ (BLCKSZ : Int) ∧
          (compress_and_backup_page comp_ret blknum page_state).crc_bytes =
            (compress_and_backup_page comp_ret blknum page_state).written_bytes) ∧
      (page_state ≠ SkipCurrentPage → page_state ≠ PageIsTruncated → comp_ret ≤ 0 →
        (compress_and_backup_page comp_ret blknum page_state).frame =
          some ⟨blknum, (BLCKSZ : Int), .rawPage⟩) := by
  intro comp_ret blknum page_state
  refine ⟨?_, ?_, ?_⟩
  · intro h
    simp [compress_and_backup_page, h]
  · intro h
    by_cases ht : page_state = PageIsTruncated
    · have hval : compress_and_backup_page comp_ret blknum page_state =
          ⟨some ⟨blknum, PageIsTruncated, .headerOnly⟩, BackupPageHeaderSize,
            BackupPageHeaderSize⟩ := by
        simp [compress_and_backup_page, h, ht]
        norm_num [PageIsTruncated, SkipCurrentPage]
      refine ⟨⟨blknum, PageIsTruncated, .headerOnly⟩, ?_, rfl, ?_, ?_⟩
      · rw [hval]
      · show PageIsTruncated ≤ (BLCKSZ : Int)
        norm_num [PageIsTruncated, BLCKSZ]
      · rw [hval]
    · by_cases hc : 0 < comp_ret ∧ comp_ret < (BLCKSZ : Int)
      · have hval : compress_and_backup_page comp_ret blknum page_state =
            ⟨some ⟨blknum, comp_ret, .compressedBytes⟩,
              BackupPageHeaderSize + MAXALIGN comp_ret.toNat,
              BackupPageHeaderSize + MAXALIGN comp_ret.toNat⟩ := by
          simp [compress_and_backup_page, h, ht, hc]
        refine ⟨⟨blknum, comp_ret, .compressedBytes⟩, ?_, rfl, ?_, ?_⟩
        · rw [hval]
        · show comp_ret ≤ (BLCKSZ : Int)
          omega
        · rw [hval]
      · have hval : compress_and_backup_page comp_ret blknum page_state =
            ⟨some ⟨blknum, (BLCKSZ : Int), .rawPage⟩,
              BackupPageHeaderSize + BLCKSZ, BackupPageHeaderSize + BLCKSZ⟩ := by
          simp [compress_and_backup_page, h, ht, hc]
        refine ⟨⟨blknum, (BLCKSZ : Int), .rawPage⟩, ?_, rfl, le_refl _, ?_⟩ <;> rw [hval]
  · intro h1 h2 h3
    have hc : ¬ (0 < comp_ret ∧ comp_ret < (BLCKSZ : Int)) := by omega
    simp [compress_and_backup_page, h1, h2, hc]

/-- C2 (amended): in DELTA mode, for a block whose first read yields
a validated page, the block is skipped — `SkipCurrentPage`, counter
incremented, no frame emitted — if and only if the file exists in the
parent backup and the page's LSN is nonzero and strictly below the
parent's start-LSN; all other such blocks are copied.  (The claim as
stated, "copy iff page-LSN ≥ parent-start-LSN", fails for pages with
LSN 0, which the code deliberately copies; see the counterexample.) -/
theorem prepare_page_delta_skip_iff :
    ∀ (E : BkEnv) (file : FileInfo) (prev_lsn b : Nat) (p : Page),
      E.reads b 0 = .page p →
      parse_page_valid p = true →
      (E.checksum_version ≠ 0 →
        E.cksum p (file.segno * RELSEG_SIZE + b) = p.pd_checksum) →
      (prepare_page E file prev_lsn b .DELTA true =
        if file.exists_in_prev ∧ p.pd_lsn ≠ 0 ∧ p.pd_lsn < prev_lsn
        then .ok SkipCurrentPage else .ok 0) ∧
      (∀ (rest : List Nat) (frames : List Frame) (n_read n_skipped : Nat),
        file.exists_in_prev → p.pd_lsn ≠ 0 → p.pd_lsn < prev_lsn →
          backup_loop E file prev_lsn .DELTA (b :: rest) frames n_read n_skipped =
            backup_loop E file prev_lsn .DELTA rest frames (n_read + 1) (n_skipped + 1)) := by
  intro E file prev_lsn b p h1 h2 h3
  have hretry := read_retry_first_ok E.cksum E.checksum_version file.segno b (E.reads b)
    E.is_ptrack_support true p h1 h2 h3
  have hprep : prepare_page E file prev_lsn b .DELTA true =
      if file.exists_in_prev ∧ p.pd_lsn ≠ 0 ∧ p.pd_lsn < prev_lsn
      then .ok SkipCurrentPage else .ok 0 := by
    unfold prepare_page
    rw [if_pos (by decide : BackupMode.DELTA ≠ BackupMode.PTRACK), hretry]
    simp [prepare_page_decide]
  refine ⟨hprep, ?_⟩
  intro rest frames n_read n_skipped he hz hlt
  have hskip : prepare_page E file prev_lsn b .DELTA true = .ok SkipCurrentPage := by
    rw [hprep, if_pos ⟨he, hz, hlt⟩]
  rw [backup_loop, hskip]
  simp [compress_and_backup_page]
  norm_num [SkipCurrentPage, PageIsTruncated]

/-- A syntactically valid page whose LSN is zero (a nullified page):
standard layout-version-4 size/version word, empty item area. -/
def zero_lsn_page : Page :=
  { pd_lsn := 0, pd_checksum := 0, pd_flags := 0, pd_lower := 24,
    pd_upper := 8192, pd_special := 8192, pd_pagesize_version := 8196,
    pd_prune_xid := 0, body := [] }

/-- A DELTA-backup environment whose every read returns the valid
page with the given LSN, checksums off, no ptrack. -/
def delta_env (lsn : Nat) : BkEnv :=
  { reads := fun _ _ => .page { zero_lsn_page with pd_lsn := lsn },
    cksum := fun _ _ => 0,
    ptrack := fun _ => .absent,
    is_ptrack_support := false,
    checksum_version := 0,
    comp := fun _ => -1 }

/-- C2 (counterexample to the claim as stated): in DELTA mode with
parent start-LSN 5, a valid page whose LSN is 0 is copied
(`prepare_page` returns 0) even though its LSN is not ≥ the parent's
start-LSN — src/data.c:418-423 skips only pages with a nonzero LSN
("Nullified pages must be copied by DELTA backup, just to be
safe"). -/
theorem prepare_page_delta_zero_lsn_copied :
    prepare_page (delta_env 0) ⟨0, true⟩ 5 0 .DELTA true = .ok 0 ∧ (0 : Nat) < 5 := by
  exact ⟨rfl, by decide⟩

/-- Witness for C2 (amended) at concrete environments: LSN 3 < 5 is
skipped (and the loop counts it without emitting a frame), LSN 7 ≥ 5
is copied. -/
theorem prepare_page_delta_skip_iff_witness :
    prepare_page (delta_env 3) ⟨0, true⟩ 5 0 .DELTA true = .ok SkipCurrentPage ∧
    prepare_page (delta_env 7) ⟨0, true⟩ 5 0 .DELTA true = .ok 0 ∧
    backup_loop (delta_env 3) ⟨0, true⟩ 5 .DELTA [0] [] 0 0 =
      backup_loop (delta_env 3) ⟨0, true⟩ 5 .DELTA [] [] 1 1 := by
  refine ⟨?_, ?_, ?_⟩
  · have := (prepare_page_delta_skip_iff (delta_env 3) ⟨0, true⟩ 5 0
      { zero_lsn_page with pd_lsn := 3 } rfl (by decide) (fun h => absurd rfl h)).1
    rw [this, if_pos (by decide)]
  · have := (prepare_page_delta_skip_iff (delta_env 7) ⟨0, true⟩ 5 0
      { zero_lsn_page with pd_lsn := 7 } rfl (by decide) (fun h => absurd rfl h)).1
    rw [this, if_neg (by decide)]
  · exact (prepare_page_delta_skip_iff (delta_env 3) ⟨0, true⟩ 5 0
      { zero_lsn_page with pd_lsn := 3 } rfl (by decide) (fun h => absurd rfl h)).2
      [] [] 0 0 rfl (by decide) (by decide)

/-- C6: in any non-PTRACK mode, a block whose first read returns
zero bytes is recorded as truncated: `prepare_page` reports
`PageIsTruncated` without error, the loop emits a header-only frame
for it, stops iterating the file's remaining blocks, and returns
successfully. -/
theorem backup_zero_read_truncated :
    ∀ (E : BkEnv) (file : FileInfo) (prev_lsn b : Nat) (mode : BackupMode),
      mode ≠ .PTRACK → E.reads b 0 = .zeroLen →
      (prepare_page E file prev_lsn b mode true = .ok PageIsTruncated) ∧
      (∀ (rest : List Nat) (frames : List Frame) (n_read n_skipped : Nat),
        backup_loop E file prev_lsn mode (b :: rest) frames n_read n_skipped =
          .ok (frames ++ [⟨b, PageIsTruncated, .headerOnly⟩], n_read + 1, n_skipped)) := by
  intro E file prev_lsn b mode hmode h1
  have hretry := read_retry_first_zero E.cksum E.checksum_version file.segno b (E.reads b)
    E.is_ptrack_support true h1
  have hprep : prepare_page E file prev_lsn b mode true = .ok PageIsTruncated := by
    unfold prepare_page
    rw [if_pos hmode, hretry]
    cases mode <;> simp_all [prepare_page_decide]
  refine ⟨hprep, ?_⟩
  intro rest frames n_read n_skipped
  rw [backup_loop, hprep]
  simp only []
  have hcb : compress_and_backup_page (E.comp b) b PageIsTruncated =
      ⟨some ⟨b, PageIsTruncated, .headerOnly⟩, BackupPageHeaderSize,
        BackupPageHeaderSize⟩ := by
    simp [compress_and_backup_page]
    norm_num [PageIsTruncated, SkipCurrentPage]
  rw [hcb]
  simp
  norm_num [PageIsTruncated, SkipCurrentPage]

/-- C9: for a stored page whose compressed size equals `BLCKSZ`,
restore decompresses it exactly when the backup's program version is
below 2.0.23 and the legacy heuristic fires — the payload fails page
header validation and, for zlib, its first byte is the magic 0x78;
for versions 2.0.23 and higher such a page is always treated as
stored uncompressed. -/
theorem restore_decompress_iff :
    ∀ (f : RFrame) (alg : CompressAlg) (ver : Nat),
      f.compressed_size = (BLCKSZ : Int) →
      ((need_decompress f.compressed_size f.payload alg ver = true ↔
        (ver < 20023 ∧ parse_page_valid f.payload = false ∧
          (alg = .ZLIB → page_first_byte f.payload = ZLIB_MAGIC))) ∧
       (20023 ≤ ver → need_decompress f.compressed_size f.payload alg ver = false)) := by
  intro f alg ver hcs
  rw [hcs]
  have hmain : need_decompress (BLCKSZ : Int) f.payload alg ver =
      page_may_be_compressed f.payload alg ver := by
    unfold need_decompress
    simp
  rw [hmain]
  constructor
  · constructor
    · intro h
      unfold page_may_be_compressed at h
      by_cases hv : parse_page_valid f.payload
      · simp [hv] at h
      · by_cases hver : ver ≥ 20023
        · simp [hv, hver] at h
        · refine ⟨by omega, by simpa using hv, ?_⟩
          intro hzl
          by_contra hne
          simp [hv, hver, hzl, hne] at h
    · rintro ⟨h1, h2, h3⟩
      unfold page_may_be_compressed
      rw [if_pos (by simp [h2]), if_neg (by omega)]
      by_cases hzl : alg = .ZLIB
      · rw [if_neg (by simp [hzl, h3 hzl])]
      · rw [if_neg (by simp [hzl])]
  · intro hver
    unfold page_may_be_compressed
    by_cases hv : parse_page_valid f.payload
    · simp [hv]
    · simp [hv, hver]

/-- Invariant for C10: if the restore loop finishes without error
starting from writes whose blocks are nondecreasing and bounded by
the current block, all writes it performs stay nondecreasing. -/
theorem restore_loop_sorted (dec_size : RFrame → Int) (ver : Nat) (file : RFile) :
    ∀ (frames : List RFrame) (blknum : Nat) (ws : List RWrite)
      (res : List RWrite × Option Nat),
      (ws.map RWrite.block).Sorted (· ≤ ·) →
      (∀ w ∈ ws, w.block ≤ blknum) →
      restore_loop dec_size ver file frames blknum ws = .ok res →
      (res.1.map RWrite.block).Sorted (· ≤ ·) := by
  intro frames
  induction frames with
  | nil =>
    intro blknum ws res hs hb h
    rw [restore_loop] at h
    split_ifs at h <;> (injection h with h; rw [← h]; exact hs)
  | cons f rest ih =>
    intro blknum ws res hs hb h
    rw [restore_loop] at h
    split_ifs at h with h1 h2 h3 h4 h5 h6 h7
    any_goals (injection h with h; rw [← h]; exact hs)
    · exact ih blknum ws res hs hb h
    · -- decompressed write
      have hge : blknum ≤ f.block := by omega
      refine ih f.block (ws ++ [⟨f.block, true⟩]) res ?_ ?_ h
      · rw [List.map_append]
        refine List.pairwise_append.mpr ⟨hs, List.pairwise_singleton _ _, ?_⟩
        intro a ha bb hbb
        simp only [List.map_cons, List.map_nil, List.mem_singleton] at hbb
        subst hbb
        rcases List.mem_map.mp ha with ⟨w, hw, hwa⟩
        subst hwa
        exact le_trans (hb w hw) hge
      · intro w hw
        rcases List.mem_append.mp hw with hw | hw
        · exact le_trans (hb w hw) hge
        · simp at hw
          rw [hw]
    · -- raw write
      have hge : blknum ≤ f.block := by omega
      refine ih f.block (ws ++ [⟨f.block, false⟩]) res ?_ ?_ h
      · rw [List.map_append]
        refine List.pairwise_append.mpr ⟨hs, List.pairwise_singleton _ _, ?_⟩
        intro a ha bb hbb
        simp only [List.map_cons, List.map_nil, List.mem_singleton] at hbb
        subst hbb
        rcases List.mem_map.mp ha with ⟨w, hw, hwa⟩
        subst hwa
        exact le_trans (hb w hw) hge
      · intro w hw
        rcases List.mem_append.mp hw with hw | hw
        · exact le_trans (hb w hw) hge
        · simp at hw
          rw [hw]

/-- C10: frames must appear in nondecreasing block order.  (1) Any
error-free restore applies its writes at nondecreasing block
numbers.  (2) An all-zero header — block 0 with compressed size 0 —
is skipped rather than applied.  (3) A reached frame whose block
number is below the previously applied one makes the restore fail
with "Backup is broken". -/
theorem restore_frame_order_claim :
    (∀ (dec_size : RFrame → Int) (ver : Nat) (file : RFile) (frames : List RFrame)
        (res : List RWrite × Option Nat),
      restore_loop dec_size ver file frames 0 [] = .ok res →
      (res.1.map RWrite.block).Sorted (· ≤ ·)) ∧
    (∀ (dec_size : RFrame → Int) (ver : Nat) (file : RFile) (p : Page)
        (rest : List RFrame) (blknum : Nat) (ws : List RWrite),
      restore_loop dec_size ver file (⟨0, 0, p⟩ :: rest) blknum ws =
        restore_loop dec_size ver file rest blknum ws) ∧
    (∀ (dec_size : RFrame → Int) (ver : Nat) (file : RFile) (f : RFrame)
        (rest : List RFrame) (blknum : Nat) (ws : List RWrite),
      file.write_size ≠ BYTES_INVALID →
      ¬(file.n_blocks ≠ BLOCKNUM_INVALID ∧ file.n_blocks < ((blknum : Int) + 1)) →
      ¬(f.block = 0 ∧ f.compressed_size = 0) →
      f.block < blknum →
      restore_loop dec_size ver file (f :: rest) blknum ws = .error .brokenBackup) := by
  refine ⟨?_, ?_, ?_⟩
  · intro dec_size ver file frames res h
    exact restore_loop_sorted dec_size ver file frames 0 [] res (by simp)
      (by intro w hw; cases hw) h
  · intro dec_size ver file p rest blknum ws
    by_cases h1 : file.write_size = BYTES_INVALID
    · conv_lhs => rw [restore_loop.eq_def]
      conv_rhs => rw [restore_loop.eq_def]
      simp [h1]
    · by_cases h2 : file.n_blocks ≠ BLOCKNUM_INVALID ∧ file.n_blocks < ((blknum : Int) + 1)
      · conv_lhs => rw [restore_loop.eq_def]
        conv_rhs => rw [restore_loop.eq_def]
        simp [h1, h2]
      · conv_lhs => rw [restore_loop.eq_def]
        simp [h1, h2]
  · intro dec_size ver file f rest blknum ws h1 h2 h3 h4
    rw [restore_loop]
    simp [h1, h2, h3, h4]

/-- Witness for C5 at concrete inputs: with a failed compression
(return -1) block 7 is written raw with `compressed_size = BLCKSZ`
and matching CRC/write byte counts, and a skipped page produces no
frame. -/
theorem compress_and_backup_page_claim_witness :
    (compress_and_backup_page (-1) 7 0).frame =
      some ⟨7, (BLCKSZ : Int), .rawPage⟩ ∧
    compress_and_backup_page (-1) 7 SkipCurrentPage = ⟨none, 0, 0⟩ ∧
    ∃ f, (compress_and_backup_page 100 7 0).frame = some f ∧
      f.block = 7 ∧ f.compressed_size ≤ (BLCKSZ : Int) ∧
      (compress_and_backup_page 100 7 0).crc_bytes =
        (compress_and_backup_page 100 7 0).written_bytes := by
  refine ⟨?_, ?_, ?_⟩
  · exact (compress_and_backup_page_claim (-1) 7 0).2.2 (by decide) (by decide)
      (by decide)
  · exact (compress_and_backup_page_claim (-1) 7 SkipCurrentPage).1 rfl
  · exact (compress_and_backup_page_claim 100 7 0).2.1 (by decide)

/-- A file whose very first read comes back empty. -/
def trunc_env : BkEnv :=
  { reads := fun _ _ => .zeroLen,
    cksum := fun _ _ => 0,
    ptrack := fun _ => .absent,
    is_ptrack_support := false,
    checksum_version := 0,
    comp := fun _ => -1 }

/-- Witness for C6 at a concrete environment: block 3 reads zero
bytes in a FULL backup, so the loop over blocks 3, 4, 5 emits only
the truncation frame for block 3 and stops without error. -/
theorem backup_zero_read_truncated_witness :
    prepare_page trunc_env ⟨0, false⟩ 0 3 .FULL true = .ok PageIsTruncated ∧
    backup_loop trunc_env ⟨0, false⟩ 0 .FULL [3, 4, 5] [] 0 0 =
      .ok ([⟨3, PageIsTruncated, .headerOnly⟩], 1, 0) := by
  have h := backup_zero_read_truncated trunc_env ⟨0, false⟩ 0 3 .FULL (by decide) rfl
  refine ⟨h.1, ?_⟩
  rw [h.2 [4, 5] [] 0 0]
  simp

/-- A page image that fails header validation and whose first byte
is the zlib magic 0x78 (LSN bits 32-39 equal 0x78). -/
def legacy_page : Page :=
  { pd_lsn := 0x78 * 2 ^ 32, pd_checksum := 0, pd_flags := 0, pd_lower := 0,
    pd_upper := 0, pd_special := 0, pd_pagesize_version := 0,
    pd_prune_xid := 0, body := [] }

/-- Witness for C9 at a concrete frame: a full-size zlib page that
fails validation and starts with 0x78 is decompressed by a backup of
version 2.0.22 and left alone by one of version 2.0.23. -/
theorem restore_decompress_iff_witness :
    need_decompress (RFrame.mk 3 (BLCKSZ : Int) legacy_page).compressed_size
      (RFrame.mk 3 (BLCKSZ : Int) legacy_page).payload .ZLIB 20022 = true ∧
    need_decompress (RFrame.mk 3 (BLCKSZ : Int) legacy_page).compressed_size
      (RFrame.mk 3 (BLCKSZ : Int) legacy_page).payload .ZLIB 20023 = false := by
  constructor
  · exact ((restore_decompress_iff ⟨3, (BLCKSZ : Int), legacy_page⟩ .ZLIB 20022
      rfl).1).mpr ⟨by norm_num, by decide, fun _ => by decide⟩
  · exact (restore_decompress_iff ⟨3, (BLCKSZ : Int), legacy_page⟩ .ZLIB 20023
      rfl).2 (by norm_num)

/-- Witness for C10 at concrete inputs: restoring two uncompressed
frames at blocks 1 then 2 succeeds with nondecreasing writes, and a
frame at block 1 arriving when block 5 was already applied fails
with "Backup is broken". -/
theorem restore_frame_order_claim_witness :
    List.Sorted (· ≤ ·)
      (List.map RWrite.block
        ([RWrite.mk 1 false, RWrite.mk 2 false], (none : Option Nat)).1) ∧
    restore_loop (fun _ => (BLCKSZ : Int)) 20023 ⟨10, BLOCKNUM_INVALID, .NONE⟩
      [⟨1, (BLCKSZ : Int), zero_lsn_page⟩] 5 [] = .error .brokenBackup ∧
    restore_loop (fun _ => (BLCKSZ : Int)) 20023 ⟨10, BLOCKNUM_INVALID, .NONE⟩
      [⟨0, 0, zero_lsn_page⟩] 5 [] =
      restore_loop (fun _ => (BLCKSZ : Int)) 20023 ⟨10, BLOCKNUM_INVALID, .NONE⟩
        [] 5 [] := by
  refine ⟨?_, ?_, ?_⟩
  · exact restore_frame_order_claim.1 (fun _ => (BLCKSZ : Int)) 20023
      ⟨10, BLOCKNUM_INVALID, .NONE⟩
      [⟨1, (BLCKSZ : Int), zero_lsn_page⟩, ⟨2, (BLCKSZ : Int), zero_lsn_page⟩]
      ([RWrite.mk 1 false, RWrite.mk 2 false], none) rfl
  · exact restore_frame_order_claim.2.2 (fun _ => (BLCKSZ : Int)) 20023
      ⟨10, BLOCKNUM_INVALID, .NONE⟩ ⟨1, (BLCKSZ : Int), zero_lsn_page⟩ [] 5 []
      (by decide) (by decide) (by decide) (by decide)
  · exact restore_frame_order_claim.2.1 (fun _ => (BLCKSZ : Int)) 20023
      ⟨10, BLOCKNUM_INVALID, .NONE⟩ zero_lsn_page [] 5 []
